import Mathlib

/-!
Verification of the grizzly_motion safety supervisor (OspreyX/grizzly).

The development shallowly embeds the two source files
`src/grizzly_motion/src/encoders_monitor.cpp` and
`src/grizzly_motion/src/motion_safety_node.cpp`.  Times and wheel speeds are
modelled as rationals; ROS message presence is modelled with `Option`.
Helpers whose definitions live in headers outside `src/`
(grizzly_msgs vector/stationary helpers, the RawStatus bit constants, the
DriveChangeLimiter, and the MotorsMonitor collaborator) are modelled from the
spec, and each such definition says so in its doc comment.
-/

set_option maxHeartbeats 1000000

/-- Wheel identifiers, in the fixed order used by grizzly_msgs wheel vectors
(indices 0..3 of Eigen VectorDrive). -/
inductive WheelIndex : Type
  | front_left
  | front_right
  | rear_left
  | rear_right
deriving DecidableEq

/-- A grizzly_msgs/Drive message: header stamp plus one signed speed per
wheel, as the four named float fields of the message. -/
structure Drive : Type where
  stamp : ℚ
  front_left : ℚ
  front_right : ℚ
  rear_left : ℚ
  rear_right : ℚ
deriving DecidableEq

/-- An Eigen VectorDrive: a wheel-indexed vector of speeds. -/
abbrev VectorDrive : Type := WheelIndex → ℚ

/-- Modelled from the spec: grizzly_msgs::vectorFromDriveMsg (its header is
not in src/), mapping the four named wheel fields of a Drive message into the
wheel-indexed vector, in the fixed wheel order. -/
def vectorFromDriveMsg (d : Drive) : VectorDrive := fun i =>
  match i with
  | .front_left => d.front_left
  | .front_right => d.front_right
  | .rear_left => d.rear_left
  | .rear_right => d.rear_right

/-- Index of the first maximal coefficient of a wheel vector, as Eigen
maxCoeff(&index): the scan visits coefficients in wheel order and replaces the
running maximum only on a strictly greater value. -/
def maxCoeffIndex (e : VectorDrive) : WheelIndex :=
  let c1 := if e .front_right > e .front_left then WheelIndex.front_right else WheelIndex.front_left
  let c2 := if e .rear_left > e c1 then WheelIndex.rear_left else c1
  if e .rear_right > e c2 then WheelIndex.rear_right else c2

/-- Maximal coefficient of a wheel vector (Eigen maxCoeff()). -/
def maxCoeff (e : VectorDrive) : ℚ :=
  max (max (e .front_left) (e .front_right)) (max (e .rear_left) (e .rear_right))

/-- Elementwise absolute wheel-speed error between measured and commanded
vectors, as computed in EncodersMonitor::detectFailedEncoderCandidate. -/
def wheelSpeedError (measured commanded : VectorDrive) : VectorDrive :=
  fun i => |measured i - commanded i|

/-- EncodersMonitor::detectFailedEncoderCandidate.  The source writes the
argmax index through an out-parameter and returns a bool; returning
`some candidate` here corresponds exactly to the source returning true with
that candidate stored. -/
def detectFailedEncoderCandidate (measured commanded : VectorDrive)
    (threshold : ℚ) : Option WheelIndex :=
  let e := wheelSpeedError measured commanded
  let candidate := maxCoeffIndex e
  let max_error := e candidate
  let max_error_diff := max_error - maxCoeff (Function.update e candidate 0)
  if measured candidate > 1/100 then none
  else if max_error_diff < threshold then none
  else some candidate

/-- The state of the EncodersMonitor object: configuration constants, the two
latest-received messages, the debounce clock, and the latched failed encoder
(the source stores an int initialized to -1; `none` models -1). -/
structure EncodersMonitor : Type where
  encoders_timeout : ℚ
  encoder_speed_error_diff_threshold : ℚ
  encoder_fault_time_to_failure : ℚ
  last_received_encoders : Option Drive
  last_received_drive : Option Drive
  time_of_last_nonsuspect_encoders : ℚ
  failed_encoder : Option WheelIndex
deriving DecidableEq

/-- EncodersMonitor::detectFailedEncoder.  Returns the bool result of the
source function together with the mutated monitor state. -/
def EncodersMonitor.detectFailedEncoder (m : EncodersMonitor) :
    Bool × EncodersMonitor :=
  match m.last_received_encoders, m.last_received_drive with
  | some enc, some drv =>
    match detectFailedEncoderCandidate (vectorFromDriveMsg enc)
        (vectorFromDriveMsg drv) m.encoder_speed_error_diff_threshold with
    | some candidate =>
        if enc.stamp - m.time_of_last_nonsuspect_encoders >
            m.encoder_fault_time_to_failure then
          (true, { m with failed_encoder := some candidate })
        else (false, m)
    | none =>
        (false, { m with time_of_last_nonsuspect_encoders := enc.stamp })
  | _, _ => (false, m)

/-- EncodersMonitor::ok, with `now` standing for ros::Time::now().  Returns
the bool result together with the monitor state as mutated by the embedded
detectFailedEncoder call. -/
def EncodersMonitor.ok (m : EncodersMonitor) (now : ℚ) :
    Bool × EncodersMonitor :=
  match m.last_received_encoders with
  | none => (false, m)
  | some enc =>
    if now - enc.stamp > m.encoders_timeout then (false, m)
    else
      match m.last_received_drive with
      | none => (true, m)
      | some drv =>
        if now - drv.stamp > m.encoders_timeout then (true, m)
        else
          let r := m.detectFailedEncoder
          (!r.1, r.2)

/-- Modelled from the spec: grizzly_msgs::isStationary (its header is not in
src/); a Drive message is stationary when every wheel speed is within the
stationary epsilon. -/
def isStationary (eps : ℚ) (d : Drive) : Bool :=
  decide (|d.front_left| ≤ eps ∧ |d.front_right| ≤ eps ∧
    |d.rear_left| ≤ eps ∧ |d.rear_right| ≤ eps)

/-- EncodersMonitor::moving: feedback is present and not stationary. -/
def EncodersMonitor.moving (m : EncodersMonitor) (eps : ℚ) : Bool :=
  match m.last_received_encoders with
  | some enc => !isStationary eps enc
  | none => false

/-- Modelled from the spec: the per-wheel DriveChangeLimiter state
(change_limiter.h is not in src/): the fixed maximum rate plus the previous
output and its timestamp, absent before the first call. -/
structure RateLimiterState : Type where
  max_rate : ℚ
  prev : Option (ℚ × ℚ)
deriving DecidableEq

/-- Modelled from the spec: DriveChangeLimiter::apply.  The first call passes
the command through and initializes the state; later calls clamp the command
to within max_rate * dt of the previous output and store the result. -/
def RateLimiterState.apply (s : RateLimiterState) (commanded now : ℚ) :
    ℚ × RateLimiterState :=
  match s.prev with
  | none => (commanded, { s with prev := some (commanded, now) })
  | some (p, t) =>
    let max_delta := s.max_rate * (now - t)
    let o := max (p - max_delta) (min commanded (p + max_delta))
    (o, { s with prev := some (o, now) })

/-- A sequence of apply calls, each input a (commanded, timestamp) pair;
returns the outputs in order together with the final limiter state. -/
def RateLimiterState.run (s : RateLimiterState) :
    List (ℚ × ℚ) → List ℚ × RateLimiterState
  | [] => ([], s)
  | (c, t) :: rest =>
    let r := s.apply c t
    let rr := r.2.run rest
    (r.1 :: rr.1, rr.2)

/-- A grizzly_msgs/RawStatus message.  The two error-mask bits consumed by the
node are modelled as named boolean predicates, since the numeric mask
constants live in a message header that is not in src/. -/
structure McuStatus : Type where
  stamp : ℚ
  error_brk_det : Bool
  error_estop_reset : Bool
deriving DecidableEq

/-- The five states of the MotionStates enum. -/
inductive MotionState : Type
  | Stopped
  | Starting
  | Moving
  | PendingStopped
  | Fault
deriving DecidableEq

/-- The mutable state of the MotionSafety node: the state machine state and
fault reason, the latest MCU status, the timing bookkeeping, the two
configuration durations, the stationary threshold (spec configuration
`stationary_epsilon`), the owned EncodersMonitor, and the four per-wheel rate
limiters (accel_limiters_[0..3]). -/
structure MotionSafetyState : Type where
  state : MotionState
  fault_reason : String
  last_mcu_status : Option McuStatus
  last_non_precharge_time : ℚ
  last_commanded_movement_time : ℚ
  transition_to_moving_time : ℚ
  starting_duration : ℚ
  stationary_epsilon : ℚ
  enc : EncodersMonitor
  fl_limiter : RateLimiterState
  fr_limiter : RateLimiterState
  rl_limiter : RateLimiterState
  rr_limiter : RateLimiterState
deriving DecidableEq

/-- MotionSafety::isEstopped: an MCU status has been received and its
ERROR_ESTOP_RESET bit is set. -/
def MotionSafetyState.isEstopped (ms : MotionSafetyState) : Bool :=
  match ms.last_mcu_status with
  | some st => st.error_estop_reset
  | none => false

/-- MotionSafety::setFault: records the Fault state and its reason.  (The
source also publishes an immediate estop-assert message, a transport side
effect outside the state.) -/
def MotionSafetyState.setFault (ms : MotionSafetyState) (reason : String) :
    MotionSafetyState :=
  { ms with state := MotionState.Fault, fault_reason := reason }

/-- MotionSafety::checkFaults: the precharge fault (the non-precharge
timestamp is refreshed whenever the ERROR_BRK_DET bit is clear, and a gap of
more than four seconds faults), then the encoder fault (a latched
detectFailedEncoder verdict faults). -/
def MotionSafetyState.checkFaults (ms : MotionSafetyState) : MotionSafetyState :=
  let ms1 :=
    match ms.last_mcu_status with
    | some st =>
      let t := if !st.error_brk_det then st.stamp else ms.last_non_precharge_time
      let msA := { ms with last_non_precharge_time := t }
      if st.stamp - t > 4 then
        msA.setFault "Precharge persisted for more than four seconds."
      else msA
    | none => ms
  let r := ms1.enc.detectFailedEncoder
  let ms2 := { ms1 with enc := r.2 }
  if r.1 then ms2.setFault "Encoder failure detected." else ms2

/-- The Stopped block of MotionSafety::watchdogCallback: a fresh
non-stationary command with no estop starts the Starting ramp and records its
deadline. -/
def stoppedBlock (ms : MotionSafetyState) (now : ℚ) : MotionSafetyState :=
  if ms.state = MotionState.Stopped then
    if now - ms.last_commanded_movement_time < 1/10 ∧ ms.isEstopped = false then
      { ms with state := MotionState.Starting,
                transition_to_moving_time := now + ms.starting_duration }
    else ms
  else ms

/-- The Starting block of MotionSafety::watchdogCallback: the flashing
ambience pattern is selected, then the three inner assignments run in source
order (deadline reached, command lapsed, health lost), the later ones
overriding the earlier.  The bool result records whether the flashing pattern
was selected. -/
def startingBlock (ms : MotionSafetyState) (now : ℚ)
    (encoders_ok motor_ok : Bool) : MotionSafetyState × Bool :=
  if ms.state = MotionState.Starting then
    let s1 := if now > ms.transition_to_moving_time then MotionState.Moving
              else MotionState.Starting
    let s2 := if now - ms.last_commanded_movement_time > 1/10 then MotionState.Stopped
              else s1
    let s3 := if !encoders_ok || !motor_ok || ms.isEstopped then MotionState.PendingStopped
              else s2
    ({ ms with state := s3 }, true)
  else (ms, false)

/-- The Moving block of MotionSafety::watchdogCallback: losing encoder or
motor health pends a stop, and a 3-second command lapse (checked second, in
source order) overrides with Stopped. -/
def movingBlock (ms : MotionSafetyState) (now : ℚ)
    (encoders_ok motor_ok : Bool) : MotionSafetyState :=
  if ms.state = MotionState.Moving then
    let s1 := if !encoders_ok || !motor_ok then MotionState.PendingStopped
              else MotionState.Moving
    let s2 := if now - ms.last_commanded_movement_time > 3 then MotionState.Stopped
              else s1
    { ms with state := s2 }
  else ms

/-- The PendingStopped block of MotionSafety::watchdogCallback: the estop
output variable is set whenever the block is entered (second component), and
the state exits to Stopped when the vehicle is nonmoving, no motion command
arrived within the last second, and the hardware estop bit is set. -/
def pendingBlock (ms : MotionSafetyState) (now : ℚ) :
    MotionSafetyState × Bool :=
  if ms.state = MotionState.PendingStopped then
    if (!ms.enc.moving ms.stationary_epsilon
        && decide (now - ms.last_commanded_movement_time > 1)
        && ms.isEstopped) then
      ({ ms with state := MotionState.Stopped }, true)
    else (ms, true)
  else (ms, false)

/-- The watchdog cycle up to (but not including) the PendingStopped block:
checkFaults, the health query (whose detectFailedEncoder call mutates the
encoders monitor), then the Stopped, Starting and Moving blocks in sequence.
The bool result is the ambience-flash flag from the Starting block.
`motor_ok` stands for the MotorsMonitor collaborator verdict; its source is
not in src/ and the spec gives only its boolean ok() contract. -/
def preOutputStage (ms : MotionSafetyState) (now : ℚ) (motor_ok : Bool) :
    MotionSafetyState × Bool :=
  let ms1 := ms.checkFaults
  let okr := ms1.enc.ok now
  let ms2 := { ms1 with enc := okr.2 }
  let ms3 := stoppedBlock ms2 now
  let p4 := startingBlock ms3 now okr.1 motor_ok
  let ms5 := movingBlock p4.1 now okr.1 motor_ok
  (ms5, p4.2)

/-- MotionSafety::watchdogCallback: one full timer cycle.  Returns the new
node state, the estop value published at the end of the cycle (set when the
PendingStopped block is entered or the cycle ends in Fault), and whether the
flashing ambience pattern was selected. -/
def watchdogCallback (ms : MotionSafetyState) (now : ℚ) (motor_ok : Bool) :
    MotionSafetyState × Bool × Bool :=
  let p := preOutputStage ms now motor_ok
  let p6 := pendingBlock p.1 now
  let estop := p6.2 || decide (p6.1.state = MotionState.Fault)
  (p6.1, estop, p.2)

/-- The per-wheel rate-limited safe command the spec prescribes for the
Moving state: each wheel of the inbound command run through that wheel's
limiter at the command's stamp, under the inbound header. -/
def rateLimitedDrive (ms : MotionSafetyState) (cmd : Drive) : Drive :=
  { stamp := cmd.stamp,
    front_left := (ms.fl_limiter.apply cmd.front_left cmd.stamp).1,
    front_right := (ms.fr_limiter.apply cmd.front_right cmd.stamp).1,
    rear_left := (ms.rl_limiter.apply cmd.rear_left cmd.stamp).1,
    rear_right := (ms.rr_limiter.apply cmd.rear_right cmd.stamp).1 }

/-- The zero/default wheel-speed Drive message (a default-constructed ROS
message has all-zero speed fields) under the inbound header stamp. -/
def zeroDrive (stamp : ℚ) : Drive :=
  { stamp := stamp, front_left := 0, front_right := 0,
    rear_left := 0, rear_right := 0 }

/-- MotionSafety::driveCallback: a non-stationary inbound command refreshes
last_commanded_movement_time from its header stamp; the emitted safe command
carries the inbound header and is the rate-limited command in Moving (also
updating the four limiter states) and the default zero vector otherwise. -/
def driveCallback (ms : MotionSafetyState) (cmd : Drive) :
    MotionSafetyState × Drive :=
  let ms1 :=
    if !isStationary ms.stationary_epsilon cmd then
      { ms with last_commanded_movement_time := cmd.stamp }
    else ms
  if ms1.state = MotionState.Moving then
    let fl := ms1.fl_limiter.apply cmd.front_left cmd.stamp
    let fr := ms1.fr_limiter.apply cmd.front_right cmd.stamp
    let rl := ms1.rl_limiter.apply cmd.rear_left cmd.stamp
    let rr := ms1.rr_limiter.apply cmd.rear_right cmd.stamp
    ({ ms1 with fl_limiter := fl.2, fr_limiter := fr.2,
                rl_limiter := rl.2, rr_limiter := rr.2 },
     { stamp := cmd.stamp, front_left := fl.1, front_right := fr.1,
       rear_left := rl.1, rear_right := rr.1 })
  else (ms1, zeroDrive cmd.stamp)

/-- The maxCoeff scan index really attains a maximal coefficient. -/
theorem le_maxCoeffIndex (e : VectorDrive) (j : WheelIndex) :
    e j ≤ e (maxCoeffIndex e) := by
  unfold maxCoeffIndex
  dsimp only
  split_ifs <;> cases j <;> linarith

/-- maxCoeff is the least upper bound of the four coefficients. -/
theorem maxCoeff_le_iff (e : VectorDrive) (b : ℚ) :
    maxCoeff e ≤ b ↔ ∀ j, e j ≤ b := by
  unfold maxCoeff
  rw [max_le_iff, max_le_iff, max_le_iff]
  constructor
  · rintro ⟨⟨h1, h2⟩, h3, h4⟩ j
    cases j <;> assumption
  · intro h
    exact ⟨⟨h _, h _⟩, h _, h _⟩

/-- Every coefficient is at most maxCoeff. -/
theorem le_maxCoeff (e : VectorDrive) (j : WheelIndex) : e j ≤ maxCoeff e := by
  unfold maxCoeff
  cases j <;> simp [le_max_iff, le_refl]

/-- There is always a wheel other than a given one. -/
theorem wheel_exists_ne (c : WheelIndex) : ∃ j, j ≠ c := by
  cases c
  · exact ⟨WheelIndex.front_right, by decide⟩
  · exact ⟨WheelIndex.front_left, by decide⟩
  · exact ⟨WheelIndex.front_left, by decide⟩
  · exact ⟨WheelIndex.front_left, by decide⟩

/-- For a nonnegative error vector, the greatest error dominating the
second-greatest (computed by zeroing the argmax slot) by at least θ is the
same as it dominating every other slot by at least θ. -/
theorem diff_ge_iff (e : VectorDrive) (c : WheelIndex) (θ : ℚ)
    (henn : ∀ j, 0 ≤ e j) :
    θ ≤ e c - maxCoeff (Function.update e c 0) ↔
      ∀ j, j ≠ c → θ ≤ e c - e j := by
  constructor
  · intro h j hj
    have h2 : Function.update e c 0 j ≤ maxCoeff (Function.update e c 0) :=
      le_maxCoeff _ _
    rw [Function.update_noteq hj] at h2
    linarith
  · intro h
    have hmax : maxCoeff (Function.update e c 0) ≤ e c - θ := by
      rw [maxCoeff_le_iff]
      intro j
      by_cases hj : j = c
      · subst hj
        rw [Function.update_same]
        obtain ⟨j0, hj0⟩ := wheel_exists_ne j
        have h0 := h j0 hj0
        have h1 := henn j0
        linarith
      · rw [Function.update_noteq hj]
        have h0 := h j hj
        linarith
    linarith

/-- Claim C3: detect_candidate returns some M, where M is the (first) index
maximizing the elementwise absolute error, exactly when measured[M] <= 0.01
and M's error exceeds every other wheel's error by at least the
error_diff_threshold (equivalently, the largest error exceeds the
second-largest by at least the threshold); in every other case it returns
none. -/
theorem detectFailedEncoderCandidate_spec (measured commanded : VectorDrive)
    (θ : ℚ) (M : WheelIndex) :
    detectFailedEncoderCandidate measured commanded θ = some M ↔
      (M = maxCoeffIndex (wheelSpeedError measured commanded) ∧
       measured M ≤ 1/100 ∧
       ∀ j, j ≠ M →
         wheelSpeedError measured commanded M -
           wheelSpeedError measured commanded j ≥ θ) := by
  unfold detectFailedEncoderCandidate
  dsimp only
  set e := wheelSpeedError measured commanded with he
  set c := maxCoeffIndex e with hc
  have henn : ∀ j, 0 ≤ e j := fun j => abs_nonneg _
  split_ifs with h1 h2
  · constructor
    · intro h
      exact h.elim
    · rintro ⟨rfl, hle, -⟩
      exfalso
      linarith
  · constructor
    · intro h
      exact h.elim
    · rintro ⟨rfl, hle, hall⟩
      exfalso
      have hd := (diff_ge_iff e c θ henn).mpr (fun j hj => hall j hj)
      linarith
  · constructor
    · intro h
      obtain rfl : c = M := Option.some.inj h
      refine ⟨rfl, by linarith, ?_⟩
      exact fun j hj => (diff_ge_iff e c θ henn).mp (by linarith) j hj
    · rintro ⟨rfl, -, -⟩
      rfl

/-- A monitor with a latched failed encoder but clean, fresh current
readings: both latest messages are stamped 10 with all wheels at speed 1. -/
def latchedCleanMonitor : EncodersMonitor :=
  { encoders_timeout := 11/100,
    encoder_speed_error_diff_threshold := 1/2,
    encoder_fault_time_to_failure := 1/2,
    last_received_encoders := some ⟨10, 1, 1, 1, 1⟩,
    last_received_drive := some ⟨10, 1, 1, 1, 1⟩,
    time_of_last_nonsuspect_encoders := 0,
    failed_encoder := some WheelIndex.front_left }

/-- Claim C1 (counterexample): with fresh feedback and fresh drive data and a
previously latched failed wheel, a call on clean readings returns true, so
ok() is not false whenever failed_wheel is set. -/
theorem ok_not_iff_failed_wheel_counterexample :
    (10 : ℚ) - 10 ≤ latchedCleanMonitor.encoders_timeout ∧
    latchedCleanMonitor.failed_encoder.isSome = true ∧
    (latchedCleanMonitor.ok 10).1 = true := by
  refine ⟨by norm_num [latchedCleanMonitor], by norm_num [latchedCleanMonitor], ?_⟩
  norm_num [latchedCleanMonitor, EncodersMonitor.ok,
    EncodersMonitor.detectFailedEncoder, detectFailedEncoderCandidate,
    maxCoeffIndex, maxCoeff, wheelSpeedError, vectorFromDriveMsg]

/-- Claim C1 (amended): whenever encoder feedback is present and fresh and
drive data is present and fresh, ok() returns the negation of what
detectFailedEncoder() returns on that same call (and propagates its state
mutation); a previously latched failed_wheel does not by itself make the
call return false. -/
theorem ok_fresh_eq_not_detect (m : EncodersMonitor) (now : ℚ)
    (enc drv : Drive)
    (he : m.last_received_encoders = some enc)
    (hfresh_e : now - enc.stamp ≤ m.encoders_timeout)
    (hd : m.last_received_drive = some drv)
    (hfresh_d : now - drv.stamp ≤ m.encoders_timeout) :
    m.ok now = (!m.detectFailedEncoder.1, m.detectFailedEncoder.2) := by
  have h1 : ¬ (now - enc.stamp > m.encoders_timeout) := not_lt.mpr hfresh_e
  have h2 : ¬ (now - drv.stamp > m.encoders_timeout) := not_lt.mpr hfresh_d
  simp only [EncodersMonitor.ok, he, hd]
  rw [if_neg h1, if_neg h2]

/-- Claim C1 (witness for the amended theorem at the latched clean monitor). -/
theorem ok_fresh_eq_not_detect_witness :
    (latchedCleanMonitor.ok 10) =
      (!latchedCleanMonitor.detectFailedEncoder.1,
       latchedCleanMonitor.detectFailedEncoder.2) :=
  ok_fresh_eq_not_detect latchedCleanMonitor 10 ⟨10, 1, 1, 1, 1⟩ ⟨10, 1, 1, 1, 1⟩
    rfl (by norm_num [latchedCleanMonitor]) rfl (by norm_num [latchedCleanMonitor])

/-- A monitor with a latched front-left failure whose current readings make
the front-right wheel a persisted failure candidate: front-right is commanded
at speed 1 but measures 0, every other wheel is clean, and the last clean
reading is 1 second old with a 0.5 second debounce. -/
def latchedOtherCandidateMonitor : EncodersMonitor :=
  { encoders_timeout := 11/100,
    encoder_speed_error_diff_threshold := 1/2,
    encoder_fault_time_to_failure := 1/2,
    last_received_encoders := some ⟨1, 0, 0, 0, 0⟩,
    last_received_drive := some ⟨1, 0, 1, 0, 0⟩,
    time_of_last_nonsuspect_encoders := 0,
    failed_encoder := some WheelIndex.front_left }

/-- Claim C2 (counterexample): a single update call overwrites an already
latched failed_encoder with a different wheel index, so the latch is not
first-occurrence-wins. -/
theorem failed_encoder_overwritten_counterexample :
    latchedOtherCandidateMonitor.failed_encoder = some WheelIndex.front_left ∧
    latchedOtherCandidateMonitor.detectFailedEncoder.2.failed_encoder =
      some WheelIndex.front_right := by
  constructor
  · norm_num [latchedOtherCandidateMonitor]
  · norm_num [latchedOtherCandidateMonitor, EncodersMonitor.detectFailedEncoder,
      detectFailedEncoderCandidate, maxCoeffIndex, maxCoeff, wheelSpeedError,
      vectorFromDriveMsg, Function.update]

/-- Claim C2 (amended): the update path never clears a latched failed_encoder
back to none — it changes failed_encoder only when it latches (returns true),
and then always to some wheel — but a later latch may overwrite it with a
different wheel index. -/
theorem failed_encoder_never_cleared (m : EncodersMonitor) :
    (m.detectFailedEncoder.1 = false →
      m.detectFailedEncoder.2.failed_encoder = m.failed_encoder) ∧
    (m.failed_encoder.isSome = true →
      m.detectFailedEncoder.2.failed_encoder.isSome = true) := by
  rcases hm : m.last_received_encoders with - | enc
  · simp [EncodersMonitor.detectFailedEncoder, hm]
  · rcases hd : m.last_received_drive with - | drv
    · simp [EncodersMonitor.detectFailedEncoder, hm, hd]
    · rcases hc : detectFailedEncoderCandidate (vectorFromDriveMsg enc)
        (vectorFromDriveMsg drv) m.encoder_speed_error_diff_threshold with - | cand
      · simp [EncodersMonitor.detectFailedEncoder, hm, hd, hc]
      · simp only [EncodersMonitor.detectFailedEncoder, hm, hd, hc]
        split_ifs with ht
        · simp
        · simp

/-- Claim C2 (witness for the amended theorem at the overwriting monitor:
the latch stays some even as it is overwritten). -/
theorem failed_encoder_never_cleared_witness :
    latchedOtherCandidateMonitor.failed_encoder.isSome = true ∧
    latchedOtherCandidateMonitor.detectFailedEncoder.2.failed_encoder.isSome = true := by
  refine ⟨by norm_num [latchedOtherCandidateMonitor], ?_⟩
  exact (failed_encoder_never_cleared latchedOtherCandidateMonitor).2
    (by norm_num [latchedOtherCandidateMonitor])

/-- A monitor seeing a clean sample: both messages stamped 7, all wheels
commanded and measured at 0, nothing latched, clean clock at 0. -/
def cleanSampleMonitor : EncodersMonitor :=
  { encoders_timeout := 11/100,
    encoder_speed_error_diff_threshold := 1/2,
    encoder_fault_time_to_failure := 1/2,
    last_received_encoders := some ⟨7, 0, 0, 0, 0⟩,
    last_received_drive := some ⟨7, 0, 0, 0, 0⟩,
    time_of_last_nonsuspect_encoders := 0,
    failed_encoder := none }

/-- Claim C8: with both feedback and command present, a sample on which
detect_candidate returns none makes the update return false and set the
debounce clock to the feedback stamp (leaving everything else unchanged);
and whenever the feedback stamp is within fault_time_to_failure of the
debounce clock, the update cannot latch: it returns false and leaves
failed_encoder unchanged. -/
theorem clean_sample_resets_debounce :
    (∀ (m : EncodersMonitor) (enc drv : Drive),
      m.last_received_encoders = some enc →
      m.last_received_drive = some drv →
      detectFailedEncoderCandidate (vectorFromDriveMsg enc)
        (vectorFromDriveMsg drv) m.encoder_speed_error_diff_threshold = none →
      m.detectFailedEncoder =
        (false, { m with time_of_last_nonsuspect_encoders := enc.stamp })) ∧
    (∀ (m : EncodersMonitor) (enc : Drive),
      m.last_received_encoders = some enc →
      enc.stamp - m.time_of_last_nonsuspect_encoders ≤
        m.encoder_fault_time_to_failure →
      m.detectFailedEncoder.1 = false ∧
      m.detectFailedEncoder.2.failed_encoder = m.failed_encoder) := by
  constructor
  · intro m enc drv he hd hc
    simp [EncodersMonitor.detectFailedEncoder, he, hd, hc]
  · intro m enc he hst
    rcases hd : m.last_received_drive with - | drv
    · simp [EncodersMonitor.detectFailedEncoder, he, hd]
    · rcases hc : detectFailedEncoderCandidate (vectorFromDriveMsg enc)
        (vectorFromDriveMsg drv) m.encoder_speed_error_diff_threshold with - | cand
      · simp [EncodersMonitor.detectFailedEncoder, he, hd, hc]
      · simp only [EncodersMonitor.detectFailedEncoder, he, hd, hc]
        rw [if_neg (not_lt.mpr hst)]
        simp

/-- Claim C8 (witness): the clean-sample monitor resets its debounce clock to
the feedback stamp 7 and does not latch. -/
theorem clean_sample_resets_debounce_witness :
    cleanSampleMonitor.detectFailedEncoder =
      (false, { cleanSampleMonitor with time_of_last_nonsuspect_encoders := 7 }) :=
  clean_sample_resets_debounce.1 cleanSampleMonitor ⟨7, 0, 0, 0, 0⟩ ⟨7, 0, 0, 0, 0⟩
    rfl rfl
    (by norm_num [detectFailedEncoderCandidate, maxCoeffIndex, maxCoeff,
      wheelSpeedError, vectorFromDriveMsg, cleanSampleMonitor, Function.update])

/-- After any apply call, the limiter remembers exactly its output and the
call's timestamp. -/
theorem rateLimiter_apply_prev (s : RateLimiterState) (c now : ℚ) :
    ((s.apply c now).2).prev = some ((s.apply c now).1, now) := by
  rcases hp : s.prev with - | ⟨p, t⟩ <;> simp [RateLimiterState.apply, hp]

/-- One apply step moves the output by at most max_rate times the elapsed
time. -/
theorem rateLimiter_apply_bound (s : RateLimiterState) (c now p t : ℚ)
    (hp : s.prev = some (p, t)) (ht : t < now) (hr : 0 ≤ s.max_rate) :
    |(s.apply c now).1 - p| ≤ s.max_rate * (now - t) := by
  have hd : 0 ≤ s.max_rate * (now - t) := mul_nonneg hr (by linarith)
  simp only [RateLimiterState.apply, hp]
  rw [abs_le]
  constructor
  · have h0 := le_max_left (p - s.max_rate * (now - t))
      (min c (p + s.max_rate * (now - t)))
    linarith
  · have h1 : min c (p + s.max_rate * (now - t)) ≤
        p + s.max_rate * (now - t) := min_le_right _ _
    have h2 : max (p - s.max_rate * (now - t))
        (min c (p + s.max_rate * (now - t))) ≤
        p + s.max_rate * (now - t) := max_le (by linarith) h1
    linarith

/-- Along a run started from a remembered (output, time) pair, with strictly
increasing timestamps, every consecutive pair of outputs (the remembered one
prepended) differs by at most max_rate times the elapsed time. -/
theorem rateLimiter_run_chain (r : ℚ) (hr : 0 ≤ r) (inputs : List (ℚ × ℚ)) :
    ∀ (p t : ℚ),
      List.Chain' (fun a b : ℚ => a < b) (t :: inputs.map Prod.snd) →
      List.Chain' (fun a b : ℚ × ℚ => |b.1 - a.1| ≤ r * (b.2 - a.2))
        ((p, t) ::
          (((RateLimiterState.mk r (some (p, t))).run inputs).1.zip
            (inputs.map Prod.snd))) := by
  induction inputs with
  | nil => intro p t _; simp [RateLimiterState.run]
  | cons a rest ih =>
    rcases a with ⟨c, t1⟩
    intro p t hch
    rw [List.map_cons, List.chain'_cons] at hch
    obtain ⟨htt1, hch'⟩ := hch
    have hb := rateLimiter_apply_bound (RateLimiterState.mk r (some (p, t)))
      c t1 p t rfl htt1 hr
    have happly : (RateLimiterState.mk r (some (p, t))).apply c t1 =
        (max (p - r * (t1 - t)) (min c (p + r * (t1 - t))),
         RateLimiterState.mk r
           (some (max (p - r * (t1 - t)) (min c (p + r * (t1 - t))), t1))) := by
      simp [RateLimiterState.apply]
    rw [happly] at hb
    simp only [RateLimiterState.run, happly, List.map_cons, List.zip_cons_cons]
    rw [List.chain'_cons]
    exact ⟨hb, ih _ _ hch'⟩

/-- Claim C7: for a freshly constructed limiter with nonnegative max_rate and
any sequence of apply calls with strictly increasing timestamps, each output
after the first differs from the previous output by at most
max_rate * dt for the elapsed time dt between the calls. -/
theorem rateLimiter_rate_bound (r : ℚ) (inputs : List (ℚ × ℚ))
    (hr : 0 ≤ r)
    (ht : List.Chain' (fun a b : ℚ => a < b) (inputs.map Prod.snd)) :
    List.Chain' (fun a b : ℚ × ℚ => |b.1 - a.1| ≤ r * (b.2 - a.2))
      (((RateLimiterState.mk r none).run inputs).1.zip (inputs.map Prod.snd)) := by
  cases inputs with
  | nil => simp [RateLimiterState.run]
  | cons a rest =>
    rcases a with ⟨c, t0⟩
    have happly : (RateLimiterState.mk r none).apply c t0 =
        (c, RateLimiterState.mk r (some (c, t0))) := by
      simp [RateLimiterState.apply]
    simp only [RateLimiterState.run, happly, List.map_cons, List.zip_cons_cons]
    exact rateLimiter_run_chain r hr rest c t0 (by rwa [List.map_cons] at ht)

/-- Claim C7 (witness): a max_rate-2 limiter over calls commanding 5 then 0
then 0 at times 0, 1, 2 keeps consecutive outputs within 2 per second. -/
theorem rateLimiter_rate_bound_witness :
    (0 : ℚ) ≤ 2 ∧
    List.Chain' (fun a b : ℚ × ℚ => |b.1 - a.1| ≤ 2 * (b.2 - a.2))
      (((RateLimiterState.mk 2 none).run [(5, 0), (0, 1), (0, 2)]).1.zip
        ([((5 : ℚ), (0 : ℚ)), (0, 1), (0, 2)].map Prod.snd)) :=
  ⟨by norm_num,
   rateLimiter_rate_bound 2 [(5, 0), (0, 1), (0, 2)] (by norm_num)
     (by norm_num [List.chain'_cons, List.chain'_singleton])⟩

/-- detectFailedEncoder never changes the received-message slots. -/
theorem detectFailedEncoder_preserves_messages (m : EncodersMonitor) :
    m.detectFailedEncoder.2.last_received_encoders = m.last_received_encoders ∧
    m.detectFailedEncoder.2.last_received_drive = m.last_received_drive := by
  rcases hm : m.last_received_encoders with - | enc
  · simp [EncodersMonitor.detectFailedEncoder, hm]
  · rcases hd : m.last_received_drive with - | drv
    · simp [EncodersMonitor.detectFailedEncoder, hm, hd]
    · rcases hc : detectFailedEncoderCandidate (vectorFromDriveMsg enc)
        (vectorFromDriveMsg drv) m.encoder_speed_error_diff_threshold with - | cand
      · simp [EncodersMonitor.detectFailedEncoder, hm, hd, hc]
      · simp only [EncodersMonitor.detectFailedEncoder, hm, hd, hc]
        split_ifs with ht <;> simp [hm, hd]

/-- ok never changes the received-message slots. -/
theorem ok_preserves_messages (m : EncodersMonitor) (now : ℚ) :
    (m.ok now).2.last_received_encoders = m.last_received_encoders := by
  rcases hm : m.last_received_encoders with - | enc
  · simp [EncodersMonitor.ok, hm]
  · simp only [EncodersMonitor.ok, hm]
    split_ifs with h1
    · simp [hm]
    · rcases hd : m.last_received_drive with - | drv
      · simp [hd, hm]
      · simp only [hd]
        split_ifs with h2
        · simp [hm]
        · simpa [hm] using (detectFailedEncoder_preserves_messages m).1

/-- checkFaults only touches the state, the fault reason, the non-precharge
time and the encoders monitor's internals; the inputs the watchdog guards
read are untouched. -/
theorem checkFaults_preserves (ms : MotionSafetyState) :
    ms.checkFaults.last_commanded_movement_time =
      ms.last_commanded_movement_time ∧
    ms.checkFaults.last_mcu_status = ms.last_mcu_status ∧
    ms.checkFaults.stationary_epsilon = ms.stationary_epsilon ∧
    ms.checkFaults.enc.last_received_encoders =
      ms.enc.last_received_encoders := by
  rcases hst : ms.last_mcu_status with - | st <;>
    simp only [MotionSafetyState.checkFaults, MotionSafetyState.setFault, hst] <;>
    split_ifs <;>
    simp [hst, (detectFailedEncoder_preserves_messages _).1]

/-- A state machine block other than its own is a no-op (Stopped block). -/
theorem stoppedBlock_skip (ms : MotionSafetyState) (now : ℚ)
    (h : ms.state ≠ MotionState.Stopped) : stoppedBlock ms now = ms := by
  unfold stoppedBlock
  rw [if_neg h]

/-- A state machine block other than its own is a no-op (Starting block). -/
theorem startingBlock_skip (ms : MotionSafetyState) (now : ℚ)
    (encoders_ok motor_ok : Bool) (h : ms.state ≠ MotionState.Starting) :
    startingBlock ms now encoders_ok motor_ok = (ms, false) := by
  unfold startingBlock
  rw [if_neg h]

/-- A state machine block other than its own is a no-op (Moving block). -/
theorem movingBlock_skip (ms : MotionSafetyState) (now : ℚ)
    (encoders_ok motor_ok : Bool) (h : ms.state ≠ MotionState.Moving) :
    movingBlock ms now encoders_ok motor_ok = ms := by
  unfold movingBlock
  rw [if_neg h]

/-- The Moving block, entered, resolves its two sequential assignments. -/
theorem movingBlock_moving (ms : MotionSafetyState) (now : ℚ)
    (encoders_ok motor_ok : Bool) (h : ms.state = MotionState.Moving) :
    movingBlock ms now encoders_ok motor_ok =
      { ms with state :=
          if now - ms.last_commanded_movement_time > 3 then MotionState.Stopped
          else if !encoders_ok || !motor_ok then MotionState.PendingStopped
          else MotionState.Moving } := by
  unfold movingBlock
  rw [if_pos h]

/-- The PendingStopped block, entered, sets the estop flag and applies its
exit guard. -/
theorem pendingBlock_pending (ms : MotionSafetyState) (now : ℚ)
    (h : ms.state = MotionState.PendingStopped) :
    pendingBlock ms now =
      (if (!ms.enc.moving ms.stationary_epsilon
           && decide (now - ms.last_commanded_movement_time > 1)
           && ms.isEstopped) = true
       then ({ ms with state := MotionState.Stopped }, true) else (ms, true)) := by
  unfold pendingBlock
  rw [if_pos h]

/-- The estop flag of the PendingStopped block records exactly whether the
block was entered. -/
theorem pendingBlock_estop (ms : MotionSafetyState) (now : ℚ) :
    (pendingBlock ms now).2 = decide (ms.state = MotionState.PendingStopped) := by
  unfold pendingBlock
  split_ifs with h1 h2 <;> simp [h1]

/-- The PendingStopped block neither creates nor destroys a Fault state. -/
theorem pendingBlock_fault (ms : MotionSafetyState) (now : ℚ) :
    ((pendingBlock ms now).1.state = MotionState.Fault) ↔
      (ms.state = MotionState.Fault) := by
  unfold pendingBlock
  split_ifs with h1 h2
  · simp [h1]
  · simp
  · simp

/-- The PendingStopped exit guard only reads the encoder feedback slot, the
stationary epsilon, the last-movement time and the MCU status. -/
theorem guard_congr (a b : MotionSafetyState) (now : ℚ)
    (h1 : a.enc.last_received_encoders = b.enc.last_received_encoders)
    (h2 : a.stationary_epsilon = b.stationary_epsilon)
    (h3 : a.last_commanded_movement_time = b.last_commanded_movement_time)
    (h4 : a.last_mcu_status = b.last_mcu_status) :
    (!a.enc.moving a.stationary_epsilon
     && decide (now - a.last_commanded_movement_time > 1)
     && a.isEstopped) =
    (!b.enc.moving b.stationary_epsilon
     && decide (now - b.last_commanded_movement_time > 1)
     && b.isEstopped) := by
  unfold EncodersMonitor.moving MotionSafetyState.isEstopped
  rw [h1, h2, h3, h4]

/-- An encoders monitor that has never received any message. -/
def encNoData : EncodersMonitor :=
  { encoders_timeout := 11/100,
    encoder_speed_error_diff_threshold := 1/2,
    encoder_fault_time_to_failure := 1/2,
    last_received_encoders := none,
    last_received_drive := none,
    time_of_last_nonsuspect_encoders := 0,
    failed_encoder := none }

/-- A limiter fresh from construction. -/
def freshLimiter : RateLimiterState := { max_rate := 1, prev := none }

/-- A node in PendingStopped whose exit guard holds at time 10: no encoder
data (hence not moving and no encoder fault), the hardware estop bit set, the
precharge bit clear, and no motion command since time 0. -/
def pendingExitState : MotionSafetyState :=
  { state := MotionState.PendingStopped,
    fault_reason := "",
    last_mcu_status := some ⟨0, false, true⟩,
    last_non_precharge_time := 0,
    last_commanded_movement_time := 0,
    transition_to_moving_time := 0,
    starting_duration := 2,
    stationary_epsilon := 1/10,
    enc := encNoData,
    fl_limiter := freshLimiter, fr_limiter := freshLimiter,
    rl_limiter := freshLimiter, rr_limiter := freshLimiter }

/-- Claim C4 (counterexample): a cycle that enters the PendingStopped block
and exits to Stopped within the same cycle still publishes estop = true, so
the published estop is not equivalent to the end-of-cycle state being
PendingStopped or Fault. -/
theorem estop_after_exit_counterexample :
    (watchdogCallback pendingExitState 10 true).2.1 = true ∧
    (watchdogCallback pendingExitState 10 true).1.state = MotionState.Stopped := by
  constructor <;>
    norm_num +decide [watchdogCallback, preOutputStage, pendingBlock, movingBlock,
      startingBlock, stoppedBlock, MotionSafetyState.checkFaults,
      MotionSafetyState.setFault, MotionSafetyState.isEstopped,
      EncodersMonitor.ok, EncodersMonitor.detectFailedEncoder,
      EncodersMonitor.moving, isStationary, pendingExitState, encNoData,
      freshLimiter]

/-- Claim C4 (amended): the estop published at the end of a watchdog cycle is
true exactly when the state reached after the Moving block (just before the
PendingStopped block runs) is PendingStopped or Fault; when the PendingStopped
exit guard fires, the cycle can end in Stopped with estop still true. -/
theorem estop_out_iff (ms : MotionSafetyState) (now : ℚ) (motor_ok : Bool) :
    (watchdogCallback ms now motor_ok).2.1 = true ↔
      ((preOutputStage ms now motor_ok).1.state = MotionState.PendingStopped ∨
       (preOutputStage ms now motor_ok).1.state = MotionState.Fault) := by
  unfold watchdogCallback
  dsimp only
  rw [pendingBlock_estop]
  simp [pendingBlock_fault]

/-- Claim C9: from a cycle that reaches the PendingStopped block in state
PendingStopped (no fault fired this cycle), the cycle ends in Stopped exactly
when the vehicle is not moving per the encoders, no non-stationary command
was observed within the last 1.0s, and the hardware estop-latched bit is set;
otherwise it remains PendingStopped. -/
theorem pendingStopped_exit (ms : MotionSafetyState) (now : ℚ)
    (motor_ok : Bool) (h : ms.checkFaults.state = MotionState.PendingStopped) :
    (watchdogCallback ms now motor_ok).1.state =
      (if (!ms.enc.moving ms.stationary_epsilon
           && decide (now - ms.last_commanded_movement_time > 1)
           && ms.isEstopped) = true
       then MotionState.Stopped else MotionState.PendingStopped) := by
  obtain ⟨hl, hmcu, heps, henc⟩ := checkFaults_preserves ms
  have hok := ok_preserves_messages ms.checkFaults.enc now
  unfold watchdogCallback preOutputStage
  dsimp only
  have hst2 : ({ ms.checkFaults with
      enc := (ms.checkFaults.enc.ok now).2 } : MotionSafetyState).state =
      MotionState.PendingStopped := h
  rw [stoppedBlock_skip _ now (by rw [hst2]; decide)]
  rw [startingBlock_skip _ now _ motor_ok (by rw [hst2]; decide)]
  dsimp only
  rw [movingBlock_skip _ now _ motor_ok (by rw [hst2]; decide)]
  rw [pendingBlock_pending _ now hst2]
  have hG := guard_congr
    ({ ms.checkFaults with enc := (ms.checkFaults.enc.ok now).2 }) ms now
    (hok.trans henc) heps hl hmcu
  rw [hG]
  split_ifs with hb
  · rfl
  · exact hst2

/-- Claim C9 (witness): at the pending exit state the guard holds at time 10,
and the cycle ends in Stopped. -/
theorem pendingStopped_exit_witness :
    pendingExitState.checkFaults.state = MotionState.PendingStopped ∧
    (watchdogCallback pendingExitState 10 true).1.state = MotionState.Stopped := by
  have h : pendingExitState.checkFaults.state = MotionState.PendingStopped := by
    norm_num +decide [MotionSafetyState.checkFaults, MotionSafetyState.setFault,
      EncodersMonitor.detectFailedEncoder, pendingExitState, encNoData]
  refine ⟨h, ?_⟩
  rw [pendingStopped_exit pendingExitState 10 true h]
  norm_num +decide [EncodersMonitor.moving, MotionSafetyState.isEstopped,
    pendingExitState, encNoData]

/-- A node in Moving at time 10 with no encoder data ever received (so
encoders_ok is false), no MCU status, and no motion command since time 0
(so the 3-second lapse has expired). -/
def movingStaleState : MotionSafetyState :=
  { pendingExitState with state := MotionState.Moving, last_mcu_status := none }

/-- Claim C5 (counterexample): in Moving with encoders_ok false and no fault
firing, the cycle can end in Stopped rather than PendingStopped, because the
3-second command-lapse check runs after the health check and overrides it. -/
theorem moving_health_loss_counterexample :
    movingStaleState.state = MotionState.Moving ∧
    movingStaleState.checkFaults.state = MotionState.Moving ∧
    (movingStaleState.checkFaults.enc.ok 10).1 = false ∧
    (watchdogCallback movingStaleState 10 true).1.state = MotionState.Stopped := by
  refine ⟨by norm_num [movingStaleState, pendingExitState], ?_, ?_, ?_⟩ <;>
    norm_num +decide [watchdogCallback, preOutputStage, pendingBlock, movingBlock,
      startingBlock, stoppedBlock, MotionSafetyState.checkFaults,
      MotionSafetyState.setFault, MotionSafetyState.isEstopped,
      EncodersMonitor.ok, EncodersMonitor.detectFailedEncoder,
      EncodersMonitor.moving, isStationary, movingStaleState, pendingExitState,
      encNoData, freshLimiter]

/-- The transition chain from a post-health-check state in Moving: with the
3-second lapse unexpired and health lost, it lands in PendingStopped, and
stays there when the exit guard is false. -/
theorem chain_moving (ms2 : MotionSafetyState) (now : ℚ) (e mo : Bool)
    (h : ms2.state = MotionState.Moving)
    (hD : ¬ (now - ms2.last_commanded_movement_time > 3))
    (hh : (!e || !mo) = true)
    (hE : (!ms2.enc.moving ms2.stationary_epsilon
           && decide (now - ms2.last_commanded_movement_time > 1)
           && ms2.isEstopped) = false) :
    (pendingBlock (movingBlock (startingBlock (stoppedBlock ms2 now) now e mo).1
      now e mo) now).1.state = MotionState.PendingStopped := by
  rw [stoppedBlock_skip ms2 now (by rw [h]; decide)]
  rw [startingBlock_skip ms2 now e mo (by rw [h]; decide)]
  dsimp only
  rw [movingBlock_moving ms2 now e mo h]
  rw [if_neg hD, if_pos hh]
  rw [pendingBlock_pending _ now rfl]
  rw [guard_congr ({ ms2 with state := MotionState.PendingStopped }) ms2 now
    rfl rfl rfl rfl, hE]
  simp

/-- Claim C5 (amended): if a cycle reaches the transition blocks in Moving
(no fault fired), encoder or motor health is lost, the 3-second command lapse
has not expired, and the PendingStopped exit guard does not hold, then the
cycle ends in PendingStopped. -/
theorem moving_health_loss_pends (ms : MotionSafetyState) (now : ℚ)
    (motor_ok : Bool)
    (hB : ms.checkFaults.state = MotionState.Moving)
    (hC : (ms.checkFaults.enc.ok now).1 = false ∨ motor_ok = false)
    (hD : now - ms.last_commanded_movement_time ≤ 3)
    (hE : (!ms.enc.moving ms.stationary_epsilon
           && decide (now - ms.last_commanded_movement_time > 1)
           && ms.isEstopped) = false) :
    (watchdogCallback ms now motor_ok).1.state = MotionState.PendingStopped := by
  obtain ⟨hl, hmcu, heps, henc⟩ := checkFaults_preserves ms
  have hok := ok_preserves_messages ms.checkFaults.enc now
  have hh : (!(ms.checkFaults.enc.ok now).1 || !motor_ok) = true := by
    rcases hC with hC | hC <;> simp [hC]
  have hD2 : ¬ (now - ms.checkFaults.last_commanded_movement_time > 3) := by
    rw [hl]
    exact not_lt.mpr hD
  have hmov : (ms.checkFaults.enc.ok now).2.moving ms.checkFaults.stationary_epsilon =
      ms.enc.moving ms.stationary_epsilon := by
    unfold EncodersMonitor.moving
    rw [hok, henc, heps]
  have hes : ms.checkFaults.isEstopped = ms.isEstopped := by
    unfold MotionSafetyState.isEstopped
    rw [hmcu]
  have hE2 : (!(ms.checkFaults.enc.ok now).2.moving ms.checkFaults.stationary_epsilon
      && decide (now - ms.checkFaults.last_commanded_movement_time > 1)
      && ms.checkFaults.isEstopped) = false := by
    rw [hmov, hl, hes]
    exact hE
  exact chain_moving { ms.checkFaults with enc := (ms.checkFaults.enc.ok now).2 }
    now (ms.checkFaults.enc.ok now).1 motor_ok hB hD2 hh hE2

/-- A node in Moving at time 10 with no encoder data, no MCU status, and the
last motion command at time 8 (within the 3-second window). -/
def movingRecentState : MotionSafetyState :=
  { movingStaleState with last_commanded_movement_time := 8 }

/-- Claim C5 (witness for the amended theorem): losing encoder health in
Moving with a recent command and a false exit guard ends the cycle in
PendingStopped. -/
theorem moving_health_loss_pends_witness :
    (watchdogCallback movingRecentState 10 true).1.state =
      MotionState.PendingStopped :=
  moving_health_loss_pends movingRecentState 10 true
    (by norm_num +decide [MotionSafetyState.checkFaults,
      MotionSafetyState.setFault, EncodersMonitor.detectFailedEncoder,
      movingRecentState, movingStaleState, pendingExitState, encNoData])
    (Or.inl (by norm_num +decide [EncodersMonitor.ok,
      EncodersMonitor.detectFailedEncoder, MotionSafetyState.checkFaults,
      MotionSafetyState.setFault, movingRecentState, movingStaleState,
      pendingExitState, encNoData]))
    (by norm_num [movingRecentState, movingStaleState, pendingExitState])
    (by norm_num +decide [EncodersMonitor.moving, MotionSafetyState.isEstopped,
      isStationary, movingRecentState, movingStaleState, pendingExitState,
      encNoData])

/-- Claim C10: if the stored non-precharge time is still its initial zero,
the latest MCU status has the precharge bit set and a stamp more than 4
seconds after time zero, and the encoders raise no fault, then checkFaults
enters Fault with the precharge reason immediately, without refreshing the
non-precharge time. -/
theorem precharge_fault_immediate (ms : MotionSafetyState) (st : McuStatus)
    (h0 : ms.last_non_precharge_time = 0)
    (h1 : ms.last_mcu_status = some st)
    (h2 : st.error_brk_det = true)
    (h3 : st.stamp > 4)
    (h4 : ms.enc.detectFailedEncoder.1 = false) :
    ms.checkFaults.state = MotionState.Fault ∧
    ms.checkFaults.fault_reason =
      "Precharge persisted for more than four seconds." ∧
    ms.checkFaults.last_non_precharge_time = 0 := by
  have h5 : st.stamp - ms.last_non_precharge_time > 4 := by
    rw [h0]
    simpa using h3
  simp only [MotionSafetyState.checkFaults, MotionSafetyState.setFault, h1, h2,
    Bool.not_true, Bool.false_eq_true, if_false, if_pos h5]
  simp [h4, h0]

/-- A node whose very first MCU status has the precharge bit set and stamp 5,
with the non-precharge clock still at its initial zero. -/
def prechargeStuckState : MotionSafetyState :=
  { pendingExitState with state := MotionState.Stopped,
                          last_mcu_status := some ⟨5, true, false⟩ }

/-- Claim C10 (witness): the first-status precharge scenario faults at once. -/
theorem precharge_fault_immediate_witness :
    prechargeStuckState.checkFaults.state = MotionState.Fault ∧
    prechargeStuckState.checkFaults.fault_reason =
      "Precharge persisted for more than four seconds." ∧
    prechargeStuckState.checkFaults.last_non_precharge_time = 0 :=
  precharge_fault_immediate prechargeStuckState ⟨5, true, false⟩
    (by norm_num [prechargeStuckState, pendingExitState])
    rfl
    rfl
    (by norm_num)
    (by norm_num +decide [EncodersMonitor.detectFailedEncoder,
      prechargeStuckState, pendingExitState, encNoData])

/-- Claim C6: the safe drive command emitted by the pass-through equals the
per-wheel rate-limited command when the current state is Moving, and the
zero/default wheel-speed vector (with the inbound header) in every other
state. -/
theorem driveCallback_safe_output (ms : MotionSafetyState) (cmd : Drive) :
    (driveCallback ms cmd).2 =
      (if ms.state = MotionState.Moving then rateLimitedDrive ms cmd
       else zeroDrive cmd.stamp) := by
  unfold driveCallback rateLimitedDrive
  dsimp only
  split_ifs <;> rfl
